import Mathlib

/-!
Verification of `azure-blob-uploader-downloader-reader.py`.

The program is embedded as pure trace-producing functions. Side effects
(console prints, network calls, local file writes, raised exceptions) are
recorded as `Event`s. External-system behaviour (the Azure SDK transfer
outcome, the bytes a blob download returns) enters through oracle
parameters (`UploadAttempt`, `DownloadResult`); the local filesystem seen
by the recursive upload is a tree (`FSNode`). Machine strings and bytes
are `String` and `List Nat`.
-/

namespace AzureBlob

/-- An in-memory tabular structure: a header row of column names and data
rows, as produced by parsing CSV text (cells kept as raw strings). -/
structure Table where
  columns : List String
  rows : List (List String)
deriving DecidableEq

/-- Observable effects of a run, in order. `uploadCall bp url` records that
the single-file upload operation was invoked for blob path `bp` (the
source's `upload_file`, which builds `url` and calls `upload_blob`);
`downloadCall url` records a `download_blob` network call; `writeFile p c`
records that the local file at `p` was opened in `wb` mode and now holds
exactly the bytes `c`; `raised m` records an uncaught exception. -/
inductive Event where
  | print (s : String)
  | printTable (t : Table)
  | uploadCall (blobPath : String) (url : String)
  | downloadCall (url : String)
  | writeFile (path : String) (content : List Nat)
  | raised (msg : String)
deriving DecidableEq

/-- Line 23/48/70 of the source: the f-string
`https://{storage_account}.blob.core.windows.net/{container_name}/{blob_path}?{sas_token}`. -/
def sas_url (storage_account container_name blob_path sas_token : String) : String :=
  "https://" ++ storage_account ++ ".blob.core.windows.net/" ++ container_name ++
    "/" ++ blob_path ++ "?" ++ sas_token

/-- Python truthiness of an `os.getenv` result: `None` and the empty
string are falsy, any other string is truthy. -/
def truthy : Option String → Bool
  | none => false
  | some s => !s.isEmpty

/-- `load_env_vars` (source lines 5-17): reads the three environment
values; `if not all([sas_token, container_name, storage_account])` raises
`EnvironmentError`, modelled as `Except.error` with the source's message. -/
def load_env_vars (env : String → Option String) :
    Except String (String × String × String) :=
  let sas_token := env "STORAGE_SAS_TOKEN_CHD"
  let container_name := env "CONTAINER_NAME_CHD"
  let storage_account := env "STORAGE_ACCOUNT_CHD"
  if truthy sas_token && truthy container_name && truthy storage_account then
    Except.ok (sas_token.getD "", container_name.getD "", storage_account.getD "")
  else
    Except.error "One or more required environment variables are missing."

/-- Outcome of one attempted single-file transfer, as decided by the
environment (local `open`, the SDK's `upload_blob`, the network): either
the `try` body completes, or some exception with message `msg` is thrown
inside it. -/
inductive UploadAttempt where
  | ok : UploadAttempt
  | fail (msg : String) : UploadAttempt
deriving DecidableEq

/-- `upload_file` (source lines 19-30): builds the SAS URL and the blob
client, then tries to open the local file and upload it; on success prints
the success line, on any exception prints the failure line and returns.
The `uploadCall` event marks the invocation itself (client construction
happens before the `try`, unconditionally). -/
def upload_file (sas_token container_name storage_account local_file_path blob_path : String)
    (attempt : UploadAttempt) : List Event :=
  let url := sas_url storage_account container_name blob_path sas_token
  Event.uploadCall blob_path url ::
  match attempt with
  | UploadAttempt.ok =>
      [Event.print ("Upload completed successfully for " ++ blob_path ++ "!")]
  | UploadAttempt.fail m =>
      [Event.print ("Failed to upload " ++ blob_path ++ ": " ++ m)]

/-- What `os.path.isfile` / `os.path.isdir` / `os.listdir` see at a local
path: a regular file, a directory with named children in
filesystem-enumeration order, or anything else (nonexistent path, socket,
broken symlink, ...), for which both `isfile` and `isdir` are false. -/
inductive FSNode where
  | file : FSNode
  | dir (children : List (String × FSNode)) : FSNode
  | other : FSNode

/-- POSIX `os.path.join` for the two-argument calls the source makes: an
absolute second argument (leading `/`) replaces the first; otherwise the
parts are joined, inserting `/` unless the first is empty or already ends
in `/`. The leading/trailing-character tests are written over `data`. -/
def osPathJoin (base item : String) : String :=
  if item.data.head? == some '/' then item
  else if base.data.isEmpty || base.data.getLast? == some '/' then base ++ item
  else base ++ "/" ++ item

mutual

/-- `upload_from_path` (source lines 32-45): a regular file delegates to
`upload_file` with `blob_base_path` as the exact blob path; a directory
iterates over `os.listdir` joining both the local path and the blob path
with the child's name; anything else falls through both branches and
returns with no effect. -/
def upload_from_path (sas_token container_name storage_account : String)
    (attempt : String → UploadAttempt) (local_path : String) (node : FSNode)
    (blob_base_path : String) : List Event :=
  match node with
  | FSNode.file =>
      upload_file sas_token container_name storage_account local_path blob_base_path
        (attempt local_path)
  | FSNode.dir children =>
      upload_from_dir sas_token container_name storage_account attempt local_path
        children blob_base_path
  | FSNode.other => []

/-- The `for item in os.listdir(local_path)` loop body of
`upload_from_path`, one child at a time, in enumeration order. -/
def upload_from_dir (sas_token container_name storage_account : String)
    (attempt : String → UploadAttempt) (local_path : String)
    (children : List (String × FSNode)) (blob_base_path : String) : List Event :=
  match children with
  | [] => []
  | (item, child) :: rest =>
      upload_from_path sas_token container_name storage_account attempt
        (osPathJoin local_path item) child (osPathJoin blob_base_path item) ++
      upload_from_dir sas_token container_name storage_account attempt local_path
        rest blob_base_path

end

/-- The blob paths of the single-file upload calls in a trace, in order. -/
def uploadCallPaths (events : List Event) : List String :=
  events.filterMap (fun e =>
    match e with
    | Event.uploadCall bp _ => some bp
    | _ => none)

/-- The network-touching events of a trace (upload and download calls). -/
def networkCalls (events : List Event) : List Event :=
  events.filter (fun e =>
    match e with
    | Event.uploadCall _ _ => true
    | Event.downloadCall _ => true
    | _ => false)

/-- What `blob_client.download_blob()` followed by `readall()` yields:
either the blob's full byte content, or an exception with a message and,
when the exception object has a `response` attribute, its HTTP status
code. -/
inductive DownloadResult where
  | ok (content : List Nat) : DownloadResult
  | err (msg : String) (status : Option Nat) : DownloadResult

/-- `download_file` (source lines 47-63): downloads the full content; if
it is empty (`if not content`), prints the empty-blob line and returns
without touching the local path; otherwise opens the local path in `wb`
mode (truncating), writes the bytes, and prints the success line. An
exception is printed as the failure line, followed by the HTTP status code
when the exception carries a response. -/
def download_file (sas_token container_name storage_account blob_path local_file_path : String)
    (net : DownloadResult) : List Event :=
  let url := sas_url storage_account container_name blob_path sas_token
  Event.downloadCall url ::
  match net with
  | DownloadResult.ok content =>
      if content.isEmpty then
        [Event.print ("The blob at " ++ blob_path ++ " is empty or could not be read.")]
      else
        [Event.writeFile local_file_path content,
         Event.print ("Download completed successfully for " ++ blob_path ++ "!")]
  | DownloadResult.err m status =>
      Event.print ("Failed to download " ++ blob_path ++ ": " ++ m) ::
      match status with
      | some code => [Event.print ("HTTP status code: " ++ toString code)]
      | none => []

/-- One byte is a UTF-8 continuation byte (`10xxxxxx`). -/
def contByte (b : Nat) : Bool := 0x80 ≤ b && b < 0xC0

/-- Strict UTF-8 decoding of a byte sequence into code points, as
performed by Python's `bytes.decode('utf-8')`: rejects stray continuation
bytes, overlong encodings, surrogate code points and code points above
U+10FFFF. -/
def utf8Decode : List Nat → Option (List Nat)
  | [] => some []
  | b :: rest =>
    if b < 0x80 then (utf8Decode rest).map (fun cs => b :: cs)
    else if b < 0xC2 then none
    else if b < 0xE0 then
      match rest with
      | b1 :: rest2 =>
        if contByte b1 then
          (utf8Decode rest2).map (fun cs => ((b - 0xC0) * 0x40 + (b1 - 0x80)) :: cs)
        else none
      | [] => none
    else if b < 0xF0 then
      match rest with
      | b1 :: b2 :: rest2 =>
        if contByte b1 && contByte b2 then
          let cp := (b - 0xE0) * 0x1000 + (b1 - 0x80) * 0x40 + (b2 - 0x80)
          if cp < 0x800 || (0xD800 ≤ cp && cp < 0xE000) then none
          else (utf8Decode rest2).map (fun cs => cp :: cs)
        else none
      | _ => none
    else if b < 0xF5 then
      match rest with
      | b1 :: b2 :: b3 :: rest2 =>
        if contByte b1 && contByte b2 && contByte b3 then
          let cp := (b - 0xF0) * 0x40000 + (b1 - 0x80) * 0x1000 +
            (b2 - 0x80) * 0x40 + (b3 - 0x80)
          if cp < 0x10000 || 0x10FFFF < cp then none
          else (utf8Decode rest2).map (fun cs => cp :: cs)
        else none
      | _ => none
    else none

/-- `content.decode('utf-8')` on the blob bytes: `none` models a raised
`UnicodeDecodeError`. -/
def decodeUtf8 (bs : List Nat) : Option String :=
  (utf8Decode bs).map (fun cs => (cs.map Char.ofNat).asString)

/-- Abstract stand-in for the text of the `UnicodeDecodeError` raised by
`content.decode('utf-8')` on invalid data. -/
def unicodeDecodeErrorMessage : String := "codec can't decode byte"

/-- Splits a character list at every occurrence of `sep`; the separator is
consumed. `splitOnChar ',' "a,b" = ["a", "b"]` (as char lists). -/
def splitOnChar (sep : Char) : List Char → List (List Char)
  | [] => [[]]
  | c :: cs =>
    let r := splitOnChar sep cs
    if c == sep then [] :: r
    else
      match r with
      | [] => [[c]]
      | h :: t => (c :: h) :: t

/-- Modelled from the spec: `pandas.read_csv` is an external library not
part of this repository. Per spec 4.5, the decoded text is parsed "as CSV
into an in-memory tabular structure (columns inferred from header row)",
and "malformed CSV ... errors are caught and reported". The model splits
lines on newlines (blank lines skipped, matching pandas's default
`skip_blank_lines`), takes the first line as the header, splits fields on
commas, keeps cells as raw strings, errors on empty input
(`EmptyDataError`) and on a data row with more fields than the header
(`ParserError`). -/
def parseCsv (s : String) : Except String Table :=
  let lines := (splitOnChar '\n' s.data).filter (fun l => !l.isEmpty)
  match lines with
  | [] => Except.error "No columns to parse from file"
  | header :: rest =>
    let cols := (splitOnChar ',' header).map List.asString
    let rows := rest.map (fun l => (splitOnChar ',' l).map List.asString)
    if rows.all (fun r => r.length ≤ cols.length) then Except.ok ⟨cols, rows⟩
    else Except.error "Error tokenizing data"

/-- `read_and_print_blob` (source lines 65-84): downloads the full
content; empty content prints the empty-blob line and returns; otherwise
the content is decoded as UTF-8, parsed as CSV and the resulting table is
printed. Any exception in the `try` body (download, decode or parse) is
printed as `Failed to read data from {blob_path}: {e}`; since the parse
raises before a table value exists, no table is printed on failure. -/
def read_and_print_blob (sas_token container_name storage_account blob_path : String)
    (net : DownloadResult) : List Event :=
  let url := sas_url storage_account container_name blob_path sas_token
  Event.downloadCall url ::
  match net with
  | DownloadResult.err m _ =>
      [Event.print ("Failed to read data from " ++ blob_path ++ ": " ++ m)]
  | DownloadResult.ok content =>
      if content.isEmpty then
        [Event.print ("The blob at " ++ blob_path ++ " is empty or could not be read.")]
      else
        match decodeUtf8 content with
        | none =>
            [Event.print ("Failed to read data from " ++ blob_path ++ ": " ++
              unicodeDecodeErrorMessage)]
        | some text =>
            match parseCsv text with
            | Except.error m =>
                [Event.print ("Failed to read data from " ++ blob_path ++ ": " ++ m)]
            | Except.ok t => [Event.printTable t]

/-- The prompt string passed to `input()` in `main`. -/
def menuPrompt : String :=
  "Choose an option:\n1. Upload File\n2. Download File\n3. Read and Print File\nEnter choice (1, 2, or 3): "

/-- POSIX `os.path.expanduser` for the `~/...` paths the source uses,
given the home directory. -/
def expanduser (home path : String) : String :=
  if path.startsWith "~/" then home ++ path.drop 1 else path

/-- `main` (source lines 86-106): loads the environment configuration
first (an `EnvironmentError` escapes uncaught, before the prompt and
before any client is built), then prompts for a choice and dispatches to
one operation with the hardcoded paths; any other choice prints
`Invalid choice.`. `localNode` is what the filesystem holds at the
hardcoded upload path; `netDownload`/`netRead` are the transfer outcomes
for choices 2 and 3. -/
def main (env : String → Option String) (choice home : String) (localNode : FSNode)
    (attempt : String → UploadAttempt) (netDownload netRead : DownloadResult) :
    List Event :=
  match load_env_vars env with
  | Except.error m => [Event.raised m]
  | Except.ok (sas_token, container_name, storage_account) =>
    Event.print menuPrompt ::
    if choice == "1" then
      upload_from_path sas_token container_name storage_account attempt
        (expanduser home "~/Downloads/test-may-2.csv") localNode "test-may-2.csv"
    else if choice == "2" then
      download_file sas_token container_name storage_account "test-may-2.csv"
        (expanduser home "~/Downloads/downloaded-test-may-2.csv") netDownload
    else if choice == "3" then
      read_and_print_blob sas_token container_name storage_account "test-may-2.csv"
        netRead
    else [Event.print "Invalid choice."]

mutual

/-- Specification-side description of which blob paths the recursive
upload attempts for a filesystem node under a blob base path: the base
path itself for a file, the children's paths (base extended by the child
name) for a directory, nothing otherwise. -/
def uploadPathsOfNode : FSNode → String → List String
  | FSNode.file, base => [base]
  | FSNode.dir children, base => uploadPathsOfDir children base
  | FSNode.other, _ => []

/-- `uploadPathsOfNode`, child by child for a directory's listing. -/
def uploadPathsOfDir : List (String × FSNode) → String → List String
  | [], _ => []
  | (item, child) :: rest, base =>
      uploadPathsOfNode child (osPathJoin base item) ++ uploadPathsOfDir rest base

end

/-- A character that needs no percent-encoding in any URL component. -/
def plainChar (c : Char) : Bool :=
  c.isAlphanum || c == '.' || c == '-' || c == '_' || c == '/'

/-- A string with no special characters (every character is plain). -/
def plainString (s : String) : Bool := s.data.all plainChar

/-- The first character of a string, if any. -/
def firstChar (s : String) : Option Char := s.data.head?

theorem ne_of_firstChar_ne {s t : String} (h : firstChar s ≠ firstChar t) : s ≠ t :=
  fun he => h (congrArg firstChar he)

theorem uploadCallPaths_append (a b : List Event) :
    uploadCallPaths (a ++ b) = uploadCallPaths a ++ uploadCallPaths b := by
  simp [uploadCallPaths, List.filterMap_append]

mutual

theorem uploadCallPaths_node (sas cn acct : String) (attempt : String → UploadAttempt) :
    ∀ (lp : String) (node : FSNode) (base : String),
      uploadCallPaths (upload_from_path sas cn acct attempt lp node base) =
        uploadPathsOfNode node base
  | lp, FSNode.file, base => by
      cases h : attempt lp <;>
        simp [upload_from_path, upload_file, uploadCallPaths, uploadPathsOfNode, h]
  | lp, FSNode.dir children, base => by
      simp only [upload_from_path, uploadPathsOfNode]
      exact uploadCallPaths_dir sas cn acct attempt lp children base
  | lp, FSNode.other, base => by
      simp [upload_from_path, uploadCallPaths, uploadPathsOfNode]

theorem uploadCallPaths_dir (sas cn acct : String) (attempt : String → UploadAttempt) :
    ∀ (lp : String) (children : List (String × FSNode)) (base : String),
      uploadCallPaths (upload_from_dir sas cn acct attempt lp children base) =
        uploadPathsOfDir children base
  | lp, [], base => by
      simp [upload_from_dir, uploadCallPaths, uploadPathsOfDir]
  | lp, (item, child) :: rest, base => by
      rw [upload_from_dir, uploadPathsOfDir, uploadCallPaths_append,
        uploadCallPaths_node sas cn acct attempt (osPathJoin lp item) child
          (osPathJoin base item),
        uploadCallPaths_dir sas cn acct attempt lp rest base]

end

theorem uploadPathsOfDir_eq_flatMap (children : List (String × FSNode)) (base : String) :
    uploadPathsOfDir children base =
      children.flatMap (fun c => uploadPathsOfNode c.2 (osPathJoin base c.1)) := by
  induction children with
  | nil => simp [uploadPathsOfDir]
  | cons c rest ih =>
      obtain ⟨item, child⟩ := c
      simp [uploadPathsOfDir, ih]

/-- C1: for every local directory tree containing exactly the regular
files `a.txt` and `sub/b.txt` (its top-level listing is any permutation of
those two entries), the recursive upload with remote base path `root`
issues exactly two single-file upload calls, one with blob path
`root/a.txt` and one with `root/sub/b.txt`, whatever order the directory
enumeration yields the children in. -/
theorem upload_two_files_exact_calls
    (sas cn acct : String) (attempt : String → UploadAttempt) (lp : String)
    (l : List (String × FSNode))
    (h : l.Perm [("a.txt", FSNode.file), ("sub", FSNode.dir [("b.txt", FSNode.file)])]) :
    (uploadCallPaths (upload_from_path sas cn acct attempt lp (FSNode.dir l) "root")).Perm
        ["root/a.txt", "root/sub/b.txt"] ∧
    (uploadCallPaths (upload_from_path sas cn acct attempt lp (FSNode.dir l) "root")).length
        = 2 := by
  have hpaths := uploadCallPaths_node sas cn acct attempt lp (FSNode.dir l) "root"
  have e1 : uploadPathsOfNode (FSNode.dir l) "root" =
      l.flatMap (fun c => uploadPathsOfNode c.2 (osPathJoin "root" c.1)) := by
    simp [uploadPathsOfNode, uploadPathsOfDir_eq_flatMap]
  have hperm := h.flatMap_right (fun c => uploadPathsOfNode c.2 (osPathJoin "root" c.1))
  have e2 : ([("a.txt", FSNode.file), ("sub", FSNode.dir [("b.txt", FSNode.file)])] :
      List (String × FSNode)).flatMap
        (fun c => uploadPathsOfNode c.2 (osPathJoin "root" c.1)) =
      ["root/a.txt", "root/sub/b.txt"] := by decide
  have hp2 : (l.flatMap (fun c => uploadPathsOfNode c.2 (osPathJoin "root" c.1))).Perm
      ["root/a.txt", "root/sub/b.txt"] := e2 ▸ hperm
  rw [hpaths, e1]
  exact ⟨hp2, by rw [hp2.length_eq]; rfl⟩

/-- C1 witness: with the top-level listing enumerated in the reversed
order, the attempted blob paths are still exactly `root/a.txt` and
`root/sub/b.txt`. -/
theorem upload_two_files_exact_calls_witness :
    ([("sub", FSNode.dir [("b.txt", FSNode.file)]), ("a.txt", FSNode.file)] :
        List (String × FSNode)).Perm
      [("a.txt", FSNode.file), ("sub", FSNode.dir [("b.txt", FSNode.file)])] ∧
    (uploadCallPaths (upload_from_path "tok" "cont" "acct" (fun _ => UploadAttempt.ok) "local"
        (FSNode.dir [("sub", FSNode.dir [("b.txt", FSNode.file)]), ("a.txt", FSNode.file)])
        "root")).Perm ["root/a.txt", "root/sub/b.txt"] := by
  have hp : ([("sub", FSNode.dir [("b.txt", FSNode.file)]), ("a.txt", FSNode.file)] :
      List (String × FSNode)).Perm
        [("a.txt", FSNode.file), ("sub", FSNode.dir [("b.txt", FSNode.file)])] :=
    List.Perm.swap ("a.txt", FSNode.file) ("sub", FSNode.dir [("b.txt", FSNode.file)]) []
  exact ⟨hp,
    (upload_two_files_exact_calls "tok" "cont" "acct" (fun _ => UploadAttempt.ok) "local"
      _ hp).1⟩

/-- C2: a failing single-file upload prints the failure line with the blob
path and the exception message and produces no other effect (it returns
normally, with no exception in the model); and the blob paths attempted by
a recursive upload do not depend on which attempts fail, so one child's
failure never prevents the remaining siblings from being attempted. -/
theorem upload_failure_printed_and_siblings_attempted
    (sas cn acct lp bp m : String) (attempt1 attempt2 : String → UploadAttempt)
    (lp2 : String) (node : FSNode) (base : String) :
    upload_file sas cn acct lp bp (UploadAttempt.fail m) =
      [Event.uploadCall bp (sas_url acct cn bp sas),
       Event.print ("Failed to upload " ++ bp ++ ": " ++ m)] ∧
    uploadCallPaths (upload_from_path sas cn acct attempt1 lp2 node base) =
      uploadCallPaths (upload_from_path sas cn acct attempt2 lp2 node base) := by
  constructor
  · rfl
  · rw [uploadCallPaths_node, uploadCallPaths_node]

/-- C3: if any of the three required environment values is unset or the
empty string, `load_env_vars` raises the configuration error, `main` ends
with that uncaught error as its only event, and in particular no network
call is ever attempted. -/
theorem missing_env_fails_before_network
    (env : String → Option String) (choice home : String) (node : FSNode)
    (attempt : String → UploadAttempt) (nd nr : DownloadResult)
    (h : env "STORAGE_SAS_TOKEN_CHD" = none ∨ env "STORAGE_SAS_TOKEN_CHD" = some "" ∨
         env "CONTAINER_NAME_CHD" = none ∨ env "CONTAINER_NAME_CHD" = some "" ∨
         env "STORAGE_ACCOUNT_CHD" = none ∨ env "STORAGE_ACCOUNT_CHD" = some "") :
    load_env_vars env =
      Except.error "One or more required environment variables are missing." ∧
    main env choice home node attempt nd nr =
      [Event.raised "One or more required environment variables are missing."] ∧
    networkCalls (main env choice home node attempt nd nr) = [] := by
  have hload : load_env_vars env =
      Except.error "One or more required environment variables are missing." := by
    unfold load_env_vars
    have he : "".isEmpty = true := rfl
    rcases h with h | h | h | h | h | h <;> simp [h, truthy, he]
  refine ⟨hload, ?_, ?_⟩ <;> simp [main, hload, networkCalls]

/-- C3 witness: with every environment value unset and choice `1`, the run
is exactly the raised configuration error. -/
theorem missing_env_fails_before_network_witness :
    ((fun _ => none : String → Option String) "STORAGE_SAS_TOKEN_CHD" = none ∨
     (fun _ => none : String → Option String) "STORAGE_SAS_TOKEN_CHD" = some "" ∨
     (fun _ => none : String → Option String) "CONTAINER_NAME_CHD" = none ∨
     (fun _ => none : String → Option String) "CONTAINER_NAME_CHD" = some "" ∨
     (fun _ => none : String → Option String) "STORAGE_ACCOUNT_CHD" = none ∨
     (fun _ => none : String → Option String) "STORAGE_ACCOUNT_CHD" = some "") ∧
    main (fun _ => none) "1" "/home/user" FSNode.file (fun _ => UploadAttempt.ok)
        (DownloadResult.ok []) (DownloadResult.ok []) =
      [Event.raised "One or more required environment variables are missing."] :=
  ⟨Or.inl rfl,
   (missing_env_fails_before_network (fun _ => none) "1" "/home/user" FSNode.file
     (fun _ => UploadAttempt.ok) (DownloadResult.ok []) (DownloadResult.ok [])
     (Or.inl rfl)).2.1⟩

/-- C4: for components with no special characters, the built URL is the
exact concatenation
`https://` + account + `.blob.core.windows.net/` + container + `/` +
blobPath + `?` + token, with no escaping or encoding applied. -/
theorem url_is_exact_concatenation
    (account container bp token : String)
    (h1 : plainString account = true) (h2 : plainString container = true)
    (h3 : plainString bp = true) (h4 : plainString token = true) :
    sas_url account container bp token =
      "https://" ++ account ++ ".blob.core.windows.net/" ++ container ++
        "/" ++ bp ++ "?" ++ token := rfl

/-- C4 witness: concrete plain components produce the concatenated URL. -/
theorem url_is_exact_concatenation_witness :
    plainString "myaccount" = true ∧ plainString "container1" = true ∧
    plainString "dir/data.csv" = true ∧ plainString "sastoken123" = true ∧
    sas_url "myaccount" "container1" "dir/data.csv" "sastoken123" =
      "https://" ++ "myaccount" ++ ".blob.core.windows.net/" ++ "container1" ++
        "/" ++ "dir/data.csv" ++ "?" ++ "sastoken123" :=
  ⟨by decide, by decide, by decide, by decide,
   url_is_exact_concatenation "myaccount" "container1" "dir/data.csv" "sastoken123"
     (by decide) (by decide) (by decide) (by decide)⟩

/-- C5: a download whose retrieved content is zero bytes logs the warning
line and returns early: no local file is created or overwritten (no write
event), and the outcome is not reported as a failure (the printed message
differs from every failure message). -/
theorem download_empty_blob_no_write (sas cn acct bp lp : String) :
    download_file sas cn acct bp lp (DownloadResult.ok []) =
      [Event.downloadCall (sas_url acct cn bp sas),
       Event.print ("The blob at " ++ bp ++ " is empty or could not be read.")] ∧
    (∀ p c, Event.writeFile p c ∉ download_file sas cn acct bp lp (DownloadResult.ok [])) ∧
    (∀ m, ("The blob at " ++ bp ++ " is empty or could not be read.") ≠
        ("Failed to download " ++ bp ++ ": " ++ m)) := by
  refine ⟨rfl, ?_, ?_⟩
  · intro p c hmem
    simp [download_file] at hmem
  · intro m
    apply ne_of_firstChar_ne
    intro hfc
    rw [show firstChar ("The blob at " ++ bp ++ " is empty or could not be read.") =
          some 'T' from rfl,
        show firstChar ("Failed to download " ++ bp ++ ": " ++ m) = some 'F' from rfl]
      at hfc
    exact absurd hfc (by decide)

/-- C6: a download whose retrieved content is non-empty writes exactly
those bytes to the local destination path (the `wb` write replaces any
prior content) and prints the success line. -/
theorem download_nonempty_writes_exact_bytes
    (sas cn acct bp lp : String) (content : List Nat) (h : content ≠ []) :
    download_file sas cn acct bp lp (DownloadResult.ok content) =
      [Event.downloadCall (sas_url acct cn bp sas),
       Event.writeFile lp content,
       Event.print ("Download completed successfully for " ++ bp ++ "!")] := by
  cases content with
  | nil => exact absurd rfl h
  | cons b bs => rfl

/-- C6 witness: downloading the two bytes `[104, 105]` writes exactly
those bytes to the destination. -/
theorem download_nonempty_writes_exact_bytes_witness :
    ([104, 105] : List Nat) ≠ [] ∧
    download_file "tok" "cont" "acct" "b.csv" "/tmp/out" (DownloadResult.ok [104, 105]) =
      [Event.downloadCall (sas_url "acct" "cont" "b.csv" "tok"),
       Event.writeFile "/tmp/out" [104, 105],
       Event.print ("Download completed successfully for " ++ "b.csv" ++ "!")] :=
  ⟨by decide,
   download_nonempty_writes_exact_bytes "tok" "cont" "acct" "b.csv" "/tmp/out"
     [104, 105] (by decide)⟩

/-- C7: a failing download prints the failure line with the blob path and
message, returns normally (no exception escapes in the model, and no local
write happens), and when the failure carries an HTTP status code that code
is printed as well. -/
theorem download_failure_prints_error_and_status (sas cn acct bp lp m : String) :
    (download_file sas cn acct bp lp (DownloadResult.err m none) =
      [Event.downloadCall (sas_url acct cn bp sas),
       Event.print ("Failed to download " ++ bp ++ ": " ++ m)]) ∧
    ∀ code : Nat, download_file sas cn acct bp lp (DownloadResult.err m (some code)) =
      [Event.downloadCall (sas_url acct cn bp sas),
       Event.print ("Failed to download " ++ bp ++ ": " ++ m),
       Event.print ("HTTP status code: " ++ toString code)] :=
  ⟨rfl, fun _ => rfl⟩

/-- C8: the UTF-8 bytes of `a,b\n1,2\n` parse into the table with header
columns `a`, `b` and the single row `1`, `2`, and the read-and-print
operation prints exactly that table. -/
theorem read_simple_csv_prints_table (sas cn acct bp : String) :
    decodeUtf8 [97, 44, 98, 10, 49, 44, 50, 10] = some "a,b\n1,2\n" ∧
    read_and_print_blob sas cn acct bp
        (DownloadResult.ok [97, 44, 98, 10, 49, 44, 50, 10]) =
      [Event.downloadCall (sas_url acct cn bp sas),
       Event.printTable ⟨["a", "b"], [["1", "2"]]⟩] := by
  refine ⟨by decide, ?_⟩
  have hdec : decodeUtf8 [97, 44, 98, 10, 49, 44, 50, 10] = some "a,b\n1,2\n" := by decide
  have hcsv : parseCsv "a,b\n1,2\n" =
      Except.ok (⟨["a", "b"], [["1", "2"]]⟩ : Table) := rfl
  simp [read_and_print_blob, hdec, hcsv]

/-- C9: non-empty blob content that fails UTF-8 decoding or CSV parsing
makes the read-and-print operation print a failure line carrying the blob
path and the underlying message, print no table (partial or otherwise),
and return normally. -/
theorem read_invalid_content_reports_failure
    (sas cn acct bp : String) (content : List Nat) (hne : content ≠ [])
    (hbad : decodeUtf8 content = none ∨
      ∃ text msg, decodeUtf8 content = some text ∧ parseCsv text = Except.error msg) :
    (∃ m, read_and_print_blob sas cn acct bp (DownloadResult.ok content) =
      [Event.downloadCall (sas_url acct cn bp sas),
       Event.print ("Failed to read data from " ++ bp ++ ": " ++ m)]) ∧
    ∀ t, Event.printTable t ∉ read_and_print_blob sas cn acct bp
        (DownloadResult.ok content) := by
  have hempty : content.isEmpty = false := by
    cases content with
    | nil => exact absurd rfl hne
    | cons b bs => rfl
  rcases hbad with hdec | ⟨text, msg, hdec, hparse⟩
  · constructor
    · exact ⟨unicodeDecodeErrorMessage, by simp [read_and_print_blob, hempty, hdec]⟩
    · intro t hmem
      simp [read_and_print_blob, hempty, hdec] at hmem
  · constructor
    · exact ⟨msg, by simp [read_and_print_blob, hempty, hdec, hparse]⟩
    · intro t hmem
      simp [read_and_print_blob, hempty, hdec, hparse] at hmem

/-- C9 witness: the single byte `0xFF` is non-empty, fails UTF-8 decoding,
and the read-and-print trace contains no table. -/
theorem read_invalid_content_reports_failure_witness :
    ([255] : List Nat) ≠ [] ∧ decodeUtf8 [255] = none ∧
    ∀ t, Event.printTable t ∉ read_and_print_blob "tok" "cont" "acct" "b.csv"
        (DownloadResult.ok [255]) :=
  ⟨by decide, by decide,
   (read_invalid_content_reports_failure "tok" "cont" "acct" "b.csv" [255]
     (by decide) (Or.inl (by decide))).2⟩

/-- C10: at a local path that is neither an existing regular file nor an
existing directory, the recursive upload issues no upload call, prints
nothing, writes nothing and raises nothing: its trace is empty. -/
theorem upload_other_path_is_noop
    (sas cn acct : String) (attempt : String → UploadAttempt) (lp base : String) :
    upload_from_path sas cn acct attempt lp FSNode.other base = [] := rfl

end AzureBlob
